import Mathlib

/-! Verification of the maigret username-scanning engine: a shallow embedding
of the probe classifier (`src/scraper.rs`) and scan-outcome model
(`src/core.rs`), with theorems about classification, retry escalation,
statistics and confidence invariants. -/

namespace Maigret

/-- Strategy tag for a probe attempt (`ScrapingStrategy` in scraper.rs). -/
inductive ScrapingStrategy
  | Fast
  | Stealth
  | AntiBlock
deriving DecidableEq, Repr

/-- Status classification of a scan outcome (`ResultStatus` in core.rs). -/
inductive ResultStatus
  | Confirmed
  | Likely
  | Private
  | NotFound
  | Blocked
  | Soft404
  | Redirected
  | Error
deriving DecidableEq, Repr

/-- `ResultStatus::is_found` from core.rs. -/
def ResultStatus.is_found : ResultStatus → Bool
  | ResultStatus.Confirmed => true
  | ResultStatus.Likely => true
  | ResultStatus.Private => true
  | _ => false

/-- Per-site definition loaded from the database (`SiteData` in core.rs).
Fields keep the source names; `error_msg` is the already-joined marker string
(serde default: empty string when the field is absent). -/
structure SiteData where
  error_type : String
  error_msg : String
  url : String
  url_main : String
  url_probe : String
  error_url : String
  username_claimed : String
  username_unclaimed : String
  regex_check : String
deriving DecidableEq, Repr

/-- Confidence scores: `f32` in the source, modelled as rationals (the
classifier only ever produces the literal constants, so no rounding is
involved). -/
abbrev ConfidenceScore := ℚ

/-- One scan outcome per (username, site) probe (`ScanResult` in core.rs). -/
structure ScanResult where
  username : String
  site : String
  url : String
  url_probe : String
  link : String
  exist : Bool
  proxied : Bool
  error : Bool
  error_msg : String
  status : ResultStatus
  confidence : ConfidenceScore
deriving DecidableEq, Repr

/-- `ScanResult::new` from core.rs: all strings empty, flags false,
status `NotFound`, confidence 0. -/
def ScanResult.new (username site : String) : ScanResult :=
  { username := username
    site := site
    url := ""
    url_probe := ""
    link := ""
    exist := false
    proxied := false
    error := false
    error_msg := ""
    status := ResultStatus.NotFound
    confidence := 0 }

/-- Rust `f32::clamp(0.0, 1.0)` on the rational model. -/
def clamp01 (c : ConfidenceScore) : ConfidenceScore := max 0 (min c 1)

/-- `ScanResult::with_error` from core.rs: sets the error flag and message,
the given status, and confidence 0. -/
def ScanResult.with_error (r : ScanResult) (msg : String) (status : ResultStatus) :
    ScanResult :=
  { r with error := true, error_msg := msg, status := status, confidence := 0 }

/-- `ScanResult::found` from core.rs: marks existence, records url and link,
clamps confidence into [0,1]. -/
def ScanResult.found (r : ScanResult) (url link : String) (status : ResultStatus)
    (confidence : ConfidenceScore) : ScanResult :=
  { r with
    exist := true
    url := url
    link := link
    status := status
    confidence := clamp01 confidence }

/-- `ScanResult::not_found` from core.rs: clears existence, records url,
clamps confidence into [0,1]. -/
def ScanResult.not_found (r : ScanResult) (url : String) (status : ResultStatus)
    (confidence : ConfidenceScore) : ScanResult :=
  { r with
    exist := false
    url := url
    status := status
    confidence := clamp01 confidence }

/-- Run statistics (`ScraperStats` in scraper.rs); durations as
naturals (milliseconds). -/
structure ScraperStats where
  total_requests : Nat
  blocked_count : Nat
  cloudflare_detected : Nat
  fastest_site : Option (String × Nat)
  slowest_site : Option (String × Nat)
deriving DecidableEq, Repr

/-- `ScraperStats::new` from scraper.rs. -/
def ScraperStats.new : ScraperStats :=
  { total_requests := 0
    blocked_count := 0
    cloudflare_detected := 0
    fastest_site := none
    slowest_site := none }

/-- `ScraperStats::update_timing` from scraper.rs: replace the fastest entry
when there is none yet or the new duration is strictly smaller, and the
slowest entry when there is none yet or the new duration is strictly larger. -/
def ScraperStats.update_timing (s : ScraperStats) (site : String) (duration : Nat) :
    ScraperStats :=
  let fastest :=
    match s.fastest_site with
    | none => some (site, duration)
    | some (n, d) => if duration < d then some (site, duration) else some (n, d)
  let slowest :=
    match s.slowest_site with
    | none => some (site, duration)
    | some (n, d) => if duration > d then some (site, duration) else some (n, d)
  { s with fastest_site := fastest, slowest_site := slowest }

/-- Character-list version of substring prefix test, mirroring Rust
`str::starts_with` on the decoded character sequence. -/
def charsStartWith : List Char → List Char → Bool
  | [], _ => true
  | _ :: _, [] => false
  | a :: as, b :: bs => if a = b then charsStartWith as bs else false

/-- Character-list substring containment, mirroring Rust `str::contains`
(the empty needle is contained in every haystack). -/
def charsContain (needle : List Char) : List Char → Bool
  | [] => charsStartWith needle []
  | b :: bs => charsStartWith needle (b :: bs) || charsContain needle bs

/-- Rust `str::contains` on strings: substring containment. -/
def strContains (hay needle : String) : Bool :=
  charsContain needle.toList hay.toList

/-- ASCII lowering of one character, as Rust `to_lowercase` acts on the
ASCII range relevant to the classifier's markers and keywords. -/
def charLower (c : Char) : Char :=
  if 'A' ≤ c ∧ c ≤ 'Z' then Char.ofNat (c.toNat + 32) else c

/-- Rust `str::to_lowercase` restricted to ASCII case mapping. -/
def strLower (s : String) : String :=
  String.mk (s.toList.map charLower)

/-- Replacement over character lists with an explicit fuel bound (the fuel
is always the haystack length, so the zero-fuel fallback is never reached
for the calls below): every occurrence of a nonempty pattern is replaced,
mirroring Rust `str::replace`; the engine only ever substitutes the
placeholder pattern, which is nonempty. -/
def charsReplaceAux (pat rep : List Char) : Nat → List Char → List Char
  | _, [] => []
  | 0, rest => rest
  | fuel + 1, c :: cs =>
    if pat ≠ [] ∧ charsStartWith pat (c :: cs) then
      rep ++ charsReplaceAux pat rep fuel (List.drop (pat.length - 1) cs)
    else
      c :: charsReplaceAux pat rep fuel cs

/-- Rust `str::replace s pat rep` for nonempty patterns. -/
def strReplace (s pat rep : String) : String :=
  String.mk (charsReplaceAux pat.toList rep.toList s.toList.length s.toList)

/-- A received HTTP response as the classifier observes it: numeric status,
optional `server` header, presence of a `cf-ray` header, the result of
reading the body as text (may fail), and the final post-redirect URL. -/
structure HttpResponse where
  status : Nat
  server_header : Option String
  cf_ray_present : Bool
  body : Except String String
  final_url : String

/-- Result of sending the probe request: a transport-level failure with its
error text, or a received response. -/
inductive SendResult
  | err (msg : String)
  | ok (resp : HttpResponse)

/-- `detect_cloudflare` from scraper.rs: the `server` header lowercased
contains "cloudflare", or a `cf-ray` header is present. -/
def detect_cloudflare (resp : HttpResponse) : Bool :=
  (match resp.server_header with
   | some s => strContains (strLower s) "cloudflare"
   | none => false) || resp.cf_ray_present

/-- `detect_rate_limit` from scraper.rs: status 429 or 503. -/
def detect_rate_limit (resp : HttpResponse) : Bool :=
  resp.status = 429 || resp.status = 503

/-- reqwest `StatusCode::is_success`: 200 ≤ status < 300. -/
def is_success (status : Nat) : Bool :=
  decide (200 ≤ status ∧ status < 300)

/-- `quick_html_check` from scraper.rs: negative markers first, then the
positive-keyword count over the lowercased body. -/
def quick_html_check (body : String) : Bool × ConfidenceScore :=
  let body_lower := strLower body
  if strContains body_lower "page not found" || strContains body_lower "404"
      || strContains body_lower "user not found" then
    (false, 9/10)
  else
    let positive_count :=
      (["profile", "posts", "followers"].filter (fun p => strContains body_lower p)).length
    if 2 ≤ positive_count then (true, 85/100) else (false, 1/2)

/-- Observable effects of one call to `check_username_intelligent`: the scan
outcome, the probe requests actually issued (URL and whether a randomized
user agent was attached), the statistics-counter increments performed, and
the `update_timing` calls made (site, duration). -/
structure ProbeOutcome where
  result : ScanResult
  requests : List (String × Bool)
  requests_counted : Nat
  blocked_counted : Nat
  cloudflare_counted : Nat
  timings : List (String × Nat)
deriving Repr

/-- The classification block of `check_username_intelligent` (scraper.rs
lines 209-264): dispatch on the site's detection method, then record timing
and build the outcome via `found`/`not_found`; body-read failures and
unsupported methods return error outcomes without recording timing. -/
def classify_response (site : String) (data : SiteData) (result : ScanResult)
    (url : String) (requests : List (String × Bool)) (cf : Nat)
    (resp : HttpResponse) (elapsed : Nat) : ProbeOutcome :=
  let mk := fun (ex : Bool) (confidence : ConfidenceScore) (status : ResultStatus) =>
    { result := if ex then result.found url url status confidence
                else result.not_found url status confidence
      requests := requests
      requests_counted := 1
      blocked_counted := 0
      cloudflare_counted := cf
      timings := [(site, elapsed)] }
  if data.error_type = "status_code" then
    if is_success resp.status then mk true (85/100) ResultStatus.Confirmed
    else if resp.status = 404 then mk false (90/100) ResultStatus.NotFound
    else mk false (60/100) ResultStatus.NotFound
  else if data.error_type = "message" then
    match resp.body with
    | Except.error e =>
      { result := result.with_error e ResultStatus.Error
        requests := requests
        requests_counted := 1
        blocked_counted := 0
        cloudflare_counted := cf
        timings := [] }
    | Except.ok body =>
      let has_error_msg := strContains body data.error_msg
      if has_error_msg then mk false (90/100) ResultStatus.NotFound
      else
        let hc := quick_html_check body
        if hc.1 then mk true hc.2 ResultStatus.Confirmed
        else mk true (75/100) ResultStatus.Likely
  else if data.error_type = "response_url" then
    if is_success resp.status ∧ resp.final_url = url then
      mk true (90/100) ResultStatus.Confirmed
    else mk false (85/100) ResultStatus.NotFound
  else
    { result := result.with_error ("Unsupported error type: " ++ data.error_type)
        ResultStatus.Error
      requests := requests
      requests_counted := 1
      blocked_counted := 0
      cloudflare_counted := cf
      timings := [] }

/-- `check_username_intelligent` from scraper.rs. The external regex engine
is an oracle `regex_is_match pattern username`, returning `none` when the
pattern fails to compile or matching errors (both fall through to the
network probe, as in the source) and `some b` for a successful match test.
The transport is the pre-determined `send` result; `elapsed` is the
wall-clock duration oracle for this attempt. -/
def check_username_intelligent (regex_is_match : String → String → Option Bool)
    (username site : String) (data : SiteData) (use_tor : Bool)
    (strategy : ScrapingStrategy) (send : SendResult) (elapsed : Nat) :
    ProbeOutcome :=
  let result0 := { ScanResult.new username site with proxied := use_tor }
  let url := strReplace data.url "\x7b\x7d" username
  let url_probe :=
    if data.url_probe ≠ "" then strReplace data.url_probe "\x7b\x7d" username else url
  let result := { result0 with url := data.url, url_probe := data.url_probe }
  if data.regex_check ≠ "" ∧ regex_is_match data.regex_check username = some false then
    { result := result.not_found url ResultStatus.NotFound (95/100)
      requests := []
      requests_counted := 0
      blocked_counted := 0
      cloudflare_counted := 0
      timings := [] }
  else
    let random_ua : Bool := decide (strategy ≠ ScrapingStrategy.Fast)
    let requests := [(url_probe, random_ua)]
    match send with
    | SendResult.err e =>
      { result := result.with_error e ResultStatus.Error
        requests := requests
        requests_counted := 1
        blocked_counted := 0
        cloudflare_counted := 0
        timings := [] }
    | SendResult.ok resp =>
      let cf := if detect_cloudflare resp then 1 else 0
      if detect_rate_limit resp then
        { result := result.with_error "Rate limited" ResultStatus.Blocked
          requests := requests
          requests_counted := 1
          blocked_counted := 1
          cloudflare_counted := cf
          timings := [] }
      else
        classify_response site data result url requests cf resp elapsed

/-- Fold one probe's statistics effects into the shared `ScraperStats`, in
the order the source performs them. -/
def apply_probe (stats : ScraperStats) (p : ProbeOutcome) : ScraperStats :=
  let s1 :=
    { stats with
      total_requests := stats.total_requests + p.requests_counted
      blocked_count := stats.blocked_count + p.blocked_counted
      cloudflare_detected := stats.cloudflare_detected + p.cloudflare_counted }
  p.timings.foldl (fun s t => s.update_timing t.1 t.2) s1

/-- Per-attempt transport behaviour observed by the retry controller: the
send result and the elapsed-time oracle for the attempt made at retry
counter value `retries`. -/
structure AttemptEnv where
  send : SendResult
  elapsed : Nat

/-- The retry loop of `check_with_adaptive_strategy` (scraper.rs lines
279-296), generalized over the attempt function. Returns the final scan
result, the strategies of the attempts in order, and the sleep durations
(ms) performed between attempts.  Terminal when the outcome has no error,
is `Blocked`, or retries are exhausted; otherwise the strategy escalates to
`Stealth` on the first retry and `AntiBlock` afterwards, sleeping
`100 * retries` ms. -/
def adaptive_loop (attempt : Nat → ScrapingStrategy → ProbeOutcome)
    (max_retries retries : Nat) (strat : ScrapingStrategy) :
    ScanResult × List ScrapingStrategy × List Nat :=
  let p := attempt retries strat
  if p.result.error = false ∨ p.result.status = ResultStatus.Blocked ∨
      max_retries ≤ retries then
    (p.result, [strat], [])
  else
    let retries1 := retries + 1
    let strat1 :=
      if retries1 = 1 then ScrapingStrategy.Stealth else ScrapingStrategy.AntiBlock
    let rest := adaptive_loop attempt max_retries retries1 strat1
    (rest.1, strat :: rest.2.1, (100 * retries1) :: rest.2.2)
termination_by max_retries - retries
decreasing_by
  rename_i h
  push_neg at h
  omega

/-- `check_with_adaptive_strategy` from scraper.rs: run the adaptive retry
loop over `check_username_intelligent`, starting at retry counter 0 with
strategy `Fast`. -/
def check_with_adaptive_strategy (regex_is_match : String → String → Option Bool)
    (username site : String) (data : SiteData) (use_tor : Bool)
    (env : Nat → AttemptEnv) (max_retries : Nat) :
    ScanResult × List ScrapingStrategy × List Nat :=
  adaptive_loop
    (fun retries strat =>
      check_username_intelligent regex_is_match username site data use_tor strat
        (env retries).send (env retries).elapsed)
    max_retries 0 ScrapingStrategy.Fast

/-- Stop case of the retry loop: a non-error outcome, a `Blocked` outcome,
or exhausted retries ends the loop with the current attempt's result. -/
theorem adaptive_loop_stop (attempt : Nat → ScrapingStrategy → ProbeOutcome)
    (max_retries retries : Nat) (strat : ScrapingStrategy)
    (h : (attempt retries strat).result.error = false ∨
      (attempt retries strat).result.status = ResultStatus.Blocked ∨
      max_retries ≤ retries) :
    adaptive_loop attempt max_retries retries strat =
      ((attempt retries strat).result, [strat], []) := by
  rw [adaptive_loop]
  simp only [if_pos h]

/-- Continue case of the retry loop: an errored, non-blocked outcome with
retries remaining escalates the strategy and recurses, recording the sleep. -/
theorem adaptive_loop_continue (attempt : Nat → ScrapingStrategy → ProbeOutcome)
    (max_retries retries : Nat) (strat : ScrapingStrategy)
    (he : (attempt retries strat).result.error = true)
    (hb : (attempt retries strat).result.status ≠ ResultStatus.Blocked)
    (hr : retries < max_retries) :
    adaptive_loop attempt max_retries retries strat =
      ((adaptive_loop attempt max_retries (retries + 1)
          (if retries + 1 = 1 then ScrapingStrategy.Stealth
           else ScrapingStrategy.AntiBlock)).1,
       strat :: (adaptive_loop attempt max_retries (retries + 1)
          (if retries + 1 = 1 then ScrapingStrategy.Stealth
           else ScrapingStrategy.AntiBlock)).2.1,
       (100 * (retries + 1)) :: (adaptive_loop attempt max_retries (retries + 1)
          (if retries + 1 = 1 then ScrapingStrategy.Stealth
           else ScrapingStrategy.AntiBlock)).2.2) := by
  rw [adaptive_loop]
  rw [if_neg]
  push_neg
  exact ⟨by simp [he], hb, by omega⟩

/-- The classification block never sets the error flag and keeps confidence 0
whenever it reports an error, provided the incoming partial result is
error-free: error outcomes come only from `with_error`. -/
theorem classify_response_error_zero (site : String) (data : SiteData)
    (result : ScanResult) (url : String) (requests : List (String × Bool))
    (cf : Nat) (resp : HttpResponse) (elapsed : Nat)
    (hres : result.error = false)
    (h : (classify_response site data result url requests cf resp elapsed).result.error
      = true) :
    (classify_response site data result url requests cf resp elapsed).result.exist
        = result.exist ∧
    (classify_response site data result url requests cf resp elapsed).result.confidence
        = 0 := by
  unfold classify_response at h ⊢
  repeat' split at h <;> repeat' split <;>
    simp_all [ScanResult.with_error, ScanResult.found, ScanResult.not_found]

/-- C9: every scan outcome returned by the classifier with `error = true`
also has `exist = false` and confidence 0, on every error path (transport
failure, rate limit, body-read failure, unsupported detection method). -/
theorem error_outcome_not_exist_zero_confidence
    (rm : String → String → Option Bool) (username site : String) (data : SiteData)
    (use_tor : Bool) (strategy : ScrapingStrategy) (send : SendResult) (elapsed : Nat)
    (h : (check_username_intelligent rm username site data use_tor strategy send
      elapsed).result.error = true) :
    (check_username_intelligent rm username site data use_tor strategy send
        elapsed).result.exist = false ∧
    (check_username_intelligent rm username site data use_tor strategy send
        elapsed).result.confidence = 0 := by
  unfold check_username_intelligent at h ⊢
  by_cases hsc : data.regex_check ≠ "" ∧ rm data.regex_check username = some false
  · simp only [if_pos hsc] at h
    simp [ScanResult.not_found, ScanResult.new] at h
  · simp only [if_neg hsc] at h ⊢
    cases send with
    | err e => simp [ScanResult.with_error, ScanResult.new]
    | ok resp =>
      by_cases hrl : detect_rate_limit resp = true
      · simp [hrl, ScanResult.with_error, ScanResult.new]
      · simp only [hrl, if_neg, Bool.false_eq_true, if_false] at h ⊢
        exact classify_response_error_zero _ _ _ _ _ _ _ _ rfl h

/-- C9 witness: a transport failure yields an error outcome with
`exist = false` and confidence 0. -/
theorem error_outcome_not_exist_zero_confidence_witness :
    (check_username_intelligent (fun _ _ => none) "alice" "site"
        { error_type := "status_code", error_msg := "", url := "https://e/\x7b\x7d",
          url_main := "", url_probe := "", error_url := "", username_claimed := "",
          username_unclaimed := "", regex_check := "" }
        false ScrapingStrategy.Fast (SendResult.err "connection refused") 0).result.exist
      = false ∧
    (check_username_intelligent (fun _ _ => none) "alice" "site"
        { error_type := "status_code", error_msg := "", url := "https://e/\x7b\x7d",
          url_main := "", url_probe := "", error_url := "", username_claimed := "",
          username_unclaimed := "", regex_check := "" }
        false ScrapingStrategy.Fast (SendResult.err "connection refused") 0).result.confidence
      = 0 :=
  error_outcome_not_exist_zero_confidence _ _ _ _ _ _ _ _ (by decide)

/-- C1: a non-empty username-validity regex that the username fails to match
short-circuits to `NotFound` with `exist = false` and confidence 0.95, and
the transport is never invoked (no request issued, no request counted). -/
theorem regex_mismatch_shortcircuit
    (rm : String → String → Option Bool) (username site : String) (data : SiteData)
    (use_tor : Bool) (strategy : ScrapingStrategy) (send : SendResult) (elapsed : Nat)
    (hre : data.regex_check ≠ "")
    (hmatch : rm data.regex_check username = some false) :
    (check_username_intelligent rm username site data use_tor strategy send
        elapsed).result.status = ResultStatus.NotFound ∧
    (check_username_intelligent rm username site data use_tor strategy send
        elapsed).result.exist = false ∧
    (check_username_intelligent rm username site data use_tor strategy send
        elapsed).result.confidence = 95/100 ∧
    (check_username_intelligent rm username site data use_tor strategy send
        elapsed).requests = [] ∧
    (check_username_intelligent rm username site data use_tor strategy send
        elapsed).requests_counted = 0 := by
  have hsc : data.regex_check ≠ "" ∧ rm data.regex_check username = some false :=
    ⟨hre, hmatch⟩
  simp only [check_username_intelligent, if_pos hsc, ScanResult.not_found,
    ScanResult.new, clamp01]
  norm_num

/-- C1 witness: a concrete site whose regex rejects the username produces
the 0.95 `NotFound` outcome with zero requests. -/
theorem regex_mismatch_shortcircuit_witness :
    (check_username_intelligent (fun _ _ => some false) "a!" "site"
        { error_type := "message", error_msg := "not found", url := "https://e/\x7b\x7d",
          url_main := "", url_probe := "", error_url := "", username_claimed := "",
          username_unclaimed := "", regex_check := "^[a-z]+$" }
        false ScrapingStrategy.Fast (SendResult.err "unused") 0).result.status
      = ResultStatus.NotFound ∧
    (check_username_intelligent (fun _ _ => some false) "a!" "site"
        { error_type := "message", error_msg := "not found", url := "https://e/\x7b\x7d",
          url_main := "", url_probe := "", error_url := "", username_claimed := "",
          username_unclaimed := "", regex_check := "^[a-z]+$" }
        false ScrapingStrategy.Fast (SendResult.err "unused") 0).result.exist = false ∧
    (check_username_intelligent (fun _ _ => some false) "a!" "site"
        { error_type := "message", error_msg := "not found", url := "https://e/\x7b\x7d",
          url_main := "", url_probe := "", error_url := "", username_claimed := "",
          username_unclaimed := "", regex_check := "^[a-z]+$" }
        false ScrapingStrategy.Fast (SendResult.err "unused") 0).result.confidence
      = 95/100 ∧
    (check_username_intelligent (fun _ _ => some false) "a!" "site"
        { error_type := "message", error_msg := "not found", url := "https://e/\x7b\x7d",
          url_main := "", url_probe := "", error_url := "", username_claimed := "",
          username_unclaimed := "", regex_check := "^[a-z]+$" }
        false ScrapingStrategy.Fast (SendResult.err "unused") 0).requests = [] ∧
    (check_username_intelligent (fun _ _ => some false) "a!" "site"
        { error_type := "message", error_msg := "not found", url := "https://e/\x7b\x7d",
          url_main := "", url_probe := "", error_url := "", username_claimed := "",
          username_unclaimed := "", regex_check := "^[a-z]+$" }
        false ScrapingStrategy.Fast (SendResult.err "unused") 0).requests_counted = 0 :=
  regex_mismatch_shortcircuit _ _ _ _ _ _ _ _ (by decide) rfl

/-- The empty character sequence is contained in every haystack, as with
Rust `str::contains("")`. -/
theorem charsContain_nil (l : List Char) : charsContain [] l = true := by
  cases l <;> simp [charsContain, charsStartWith]

/-- Rust `body.contains("")` is true for every body. -/
theorem strContains_empty (s : String) : strContains s "" = true :=
  charsContain_nil s.toList

/-- C5: with detection method `status_code` and a non-rate-limited response,
a 2xx status yields `Confirmed` with `exist = true` and confidence 0.85,
status 404 yields `NotFound` with confidence 0.90, and any other status
yields `NotFound` with confidence 0.60. -/
theorem status_code_classification
    (rm : String → String → Option Bool) (username site : String) (data : SiteData)
    (use_tor : Bool) (strategy : ScrapingStrategy) (resp : HttpResponse) (elapsed : Nat)
    (hsc : ¬(data.regex_check ≠ "" ∧ rm data.regex_check username = some false))
    (htype : data.error_type = "status_code")
    (hrl : detect_rate_limit resp = false) :
    (is_success resp.status = true →
      (check_username_intelligent rm username site data use_tor strategy
          (SendResult.ok resp) elapsed).result.status = ResultStatus.Confirmed ∧
      (check_username_intelligent rm username site data use_tor strategy
          (SendResult.ok resp) elapsed).result.exist = true ∧
      (check_username_intelligent rm username site data use_tor strategy
          (SendResult.ok resp) elapsed).result.confidence = 85/100) ∧
    (resp.status = 404 →
      (check_username_intelligent rm username site data use_tor strategy
          (SendResult.ok resp) elapsed).result.status = ResultStatus.NotFound ∧
      (check_username_intelligent rm username site data use_tor strategy
          (SendResult.ok resp) elapsed).result.exist = false ∧
      (check_username_intelligent rm username site data use_tor strategy
          (SendResult.ok resp) elapsed).result.confidence = 90/100) ∧
    (is_success resp.status = false → resp.status ≠ 404 →
      (check_username_intelligent rm username site data use_tor strategy
          (SendResult.ok resp) elapsed).result.status = ResultStatus.NotFound ∧
      (check_username_intelligent rm username site data use_tor strategy
          (SendResult.ok resp) elapsed).result.exist = false ∧
      (check_username_intelligent rm username site data use_tor strategy
          (SendResult.ok resp) elapsed).result.confidence = 60/100) := by
  simp only [check_username_intelligent, if_neg hsc, hrl, Bool.false_eq_true, if_false,
    classify_response, htype, if_pos]
  refine ⟨?_, ?_, ?_⟩
  · intro hok
    simp only [hok, if_true, ScanResult.found, clamp01]
    norm_num
  · intro h404
    have hns : is_success 404 = false := by decide
    simp only [h404, hns, Bool.false_eq_true, if_false, if_true, ScanResult.not_found,
      clamp01]
    norm_num
  · intro hns hn404
    simp only [hns, Bool.false_eq_true, if_false, if_neg hn404, ScanResult.not_found,
      clamp01]
    norm_num

/-- C5 witness: HTTP 200 on a `status_code` site is `Confirmed` with
confidence 0.85. -/
theorem status_code_classification_witness :
    (check_username_intelligent (fun _ _ => none) "alice" "site"
        { error_type := "status_code", error_msg := "", url := "https://e/\x7b\x7d",
          url_main := "", url_probe := "", error_url := "", username_claimed := "",
          username_unclaimed := "", regex_check := "" }
        false ScrapingStrategy.Fast
        (SendResult.ok
          { status := 200
            server_header := none
            cf_ray_present := false
            body := Except.ok ""
            final_url := "" }) 0).result.status
      = ResultStatus.Confirmed ∧
    (check_username_intelligent (fun _ _ => none) "alice" "site"
        { error_type := "status_code", error_msg := "", url := "https://e/\x7b\x7d",
          url_main := "", url_probe := "", error_url := "", username_claimed := "",
          username_unclaimed := "", regex_check := "" }
        false ScrapingStrategy.Fast
        (SendResult.ok
          { status := 200
            server_header := none
            cf_ray_present := false
            body := Except.ok ""
            final_url := "" }) 0).result.exist = true ∧
    (check_username_intelligent (fun _ _ => none) "alice" "site"
        { error_type := "status_code", error_msg := "", url := "https://e/\x7b\x7d",
          url_main := "", url_probe := "", error_url := "", username_claimed := "",
          username_unclaimed := "", regex_check := "" }
        false ScrapingStrategy.Fast
        (SendResult.ok
          { status := 200
            server_header := none
            cf_ray_present := false
            body := Except.ok ""
            final_url := "" }) 0).result.confidence = 85/100 :=
  (status_code_classification _ _ _ _ _ _ _ _ (by decide) rfl (by decide)).1 (by decide)

/-- C10: with detection method `message` and the default empty error marker,
every non-rate-limited response whose body reads successfully classifies as
`NotFound` with confidence 0.90 and `exist = false`, whatever the body says,
because the empty string is contained in every body. -/
theorem empty_marker_always_not_found
    (rm : String → String → Option Bool) (username site : String) (data : SiteData)
    (use_tor : Bool) (strategy : ScrapingStrategy) (resp : HttpResponse)
    (elapsed : Nat) (body : String)
    (hsc : ¬(data.regex_check ≠ "" ∧ rm data.regex_check username = some false))
    (htype : data.error_type = "message")
    (hmsg : data.error_msg = "")
    (hrl : detect_rate_limit resp = false)
    (hbody : resp.body = Except.ok body) :
    (check_username_intelligent rm username site data use_tor strategy
        (SendResult.ok resp) elapsed).result.status = ResultStatus.NotFound ∧
    (check_username_intelligent rm username site data use_tor strategy
        (SendResult.ok resp) elapsed).result.exist = false ∧
    (check_username_intelligent rm username site data use_tor strategy
        (SendResult.ok resp) elapsed).result.confidence = 90/100 := by
  have h1 : ("message" = "status_code") = False := by decide
  simp only [check_username_intelligent, if_neg hsc, hrl, Bool.false_eq_true, if_false,
    classify_response, htype, h1, hbody, hmsg, strContains_empty, if_true,
    ScanResult.not_found, clamp01]
  norm_num

/-- C10 witness: a body full of positive keywords is still `NotFound` when
the marker is empty. -/
theorem empty_marker_always_not_found_witness :
    (check_username_intelligent (fun _ _ => none) "alice" "site"
        { error_type := "message", error_msg := "", url := "https://e/\x7b\x7d",
          url_main := "", url_probe := "", error_url := "", username_claimed := "",
          username_unclaimed := "", regex_check := "" }
        false ScrapingStrategy.Fast
        (SendResult.ok
          { status := 200
            server_header := none
            cf_ray_present := false
            body := Except.ok "profile posts followers"
            final_url := "" }) 0).result.status
      = ResultStatus.NotFound ∧
    (check_username_intelligent (fun _ _ => none) "alice" "site"
        { error_type := "message", error_msg := "", url := "https://e/\x7b\x7d",
          url_main := "", url_probe := "", error_url := "", username_claimed := "",
          username_unclaimed := "", regex_check := "" }
        false ScrapingStrategy.Fast
        (SendResult.ok
          { status := 200
            server_header := none
            cf_ray_present := false
            body := Except.ok "profile posts followers"
            final_url := "" }) 0).result.exist
      = false ∧
    (check_username_intelligent (fun _ _ => none) "alice" "site"
        { error_type := "message", error_msg := "", url := "https://e/\x7b\x7d",
          url_main := "", url_probe := "", error_url := "", username_claimed := "",
          username_unclaimed := "", regex_check := "" }
        false ScrapingStrategy.Fast
        (SendResult.ok
          { status := 200
            server_header := none
            cf_ray_present := false
            body := Except.ok "profile posts followers"
            final_url := "" }) 0).result.confidence
      = 90/100 :=
  empty_marker_always_not_found _ _ _ _ _ _ _ _ _ (by decide) rfl rfl (by decide) rfl

/-- The keyword heuristic reports a positive hit exactly when no negative
marker is present and at least two positive keywords occur. -/
theorem quick_html_check_positive (body : String)
    (hneg : (strContains (strLower body) "page not found" ||
        strContains (strLower body) "404" ||
        strContains (strLower body) "user not found") = false)
    (hpos : 2 ≤ (["profile", "posts", "followers"].filter
        (fun p => strContains (strLower body) p)).length) :
    quick_html_check body = (true, 85/100) := by
  unfold quick_html_check
  simp only [hneg, Bool.false_eq_true, if_false, if_pos hpos]

/-- The keyword heuristic reports no positive hit when a negative marker is
present or fewer than two positive keywords occur. -/
theorem quick_html_check_not_positive (body : String)
    (h : (strContains (strLower body) "page not found" ||
        strContains (strLower body) "404" ||
        strContains (strLower body) "user not found") = true ∨
      (["profile", "posts", "followers"].filter
        (fun p => strContains (strLower body) p)).length < 2) :
    (quick_html_check body).1 = false := by
  unfold quick_html_check
  rcases h with hn | hlt
  · simp [hn]
  · by_cases hn : (strContains (strLower body) "page not found" ||
        strContains (strLower body) "404" ||
        strContains (strLower body) "user not found") = true
    · simp [hn]
    · simp [hn, Nat.not_le.mpr hlt]

/-- C4 counterexample: detection method `message`, marker `"ERRX"` absent
from the body `"404 profile followers"`, which contains the two positive
keywords `profile` and `followers`; the claim predicts `Confirmed`, but the
code's negative-marker check (`"404"`) fires first inside the heuristic and
the outcome is `Likely`, not `Confirmed`. -/
theorem message_keyword_claim_counterexample :
    strContains "404 profile followers" "ERRX" = false ∧
    2 ≤ (["profile", "posts", "followers"].filter
        (fun p => strContains (strLower "404 profile followers") p)).length ∧
    (check_username_intelligent (fun _ _ => none) "alice" "site"
        { error_type := "message", error_msg := "ERRX", url := "https://e/\x7b\x7d",
          url_main := "", url_probe := "", error_url := "", username_claimed := "",
          username_unclaimed := "", regex_check := "" }
        false ScrapingStrategy.Fast
        (SendResult.ok
          { status := 200
            server_header := none
            cf_ray_present := false
            body := Except.ok "404 profile followers"
            final_url := "" }) 5).result.status = ResultStatus.Likely ∧
    ¬(check_username_intelligent (fun _ _ => none) "alice" "site"
        { error_type := "message", error_msg := "ERRX", url := "https://e/\x7b\x7d",
          url_main := "", url_probe := "", error_url := "", username_claimed := "",
          username_unclaimed := "", regex_check := "" }
        false ScrapingStrategy.Fast
        (SendResult.ok
          { status := 200
            server_header := none
            cf_ray_present := false
            body := Except.ok "404 profile followers"
            final_url := "" }) 5).result.status = ResultStatus.Confirmed := by
  decide

/-- C4 as amended: with detection method `message` and a readable,
non-rate-limited body — a body containing the configured error marker is
`NotFound` (0.90, `exist = false`); a body without the marker, without any
negative marker (`page not found`, `404`, `user not found`) and with at
least two positive keywords is `Confirmed` (`exist = true`, 0.85); any
other body without the marker is `Likely` (`exist = true`, 0.75). -/
theorem message_method_classification
    (rm : String → String → Option Bool) (username site : String) (data : SiteData)
    (use_tor : Bool) (strategy : ScrapingStrategy) (resp : HttpResponse)
    (elapsed : Nat) (body : String)
    (hsc : ¬(data.regex_check ≠ "" ∧ rm data.regex_check username = some false))
    (htype : data.error_type = "message")
    (hrl : detect_rate_limit resp = false)
    (hbody : resp.body = Except.ok body) :
    (strContains body data.error_msg = true →
      (check_username_intelligent rm username site data use_tor strategy
          (SendResult.ok resp) elapsed).result.status = ResultStatus.NotFound ∧
      (check_username_intelligent rm username site data use_tor strategy
          (SendResult.ok resp) elapsed).result.exist = false ∧
      (check_username_intelligent rm username site data use_tor strategy
          (SendResult.ok resp) elapsed).result.confidence = 90/100) ∧
    (strContains body data.error_msg = false →
      (strContains (strLower body) "page not found" ||
        strContains (strLower body) "404" ||
        strContains (strLower body) "user not found") = false →
      2 ≤ (["profile", "posts", "followers"].filter
        (fun p => strContains (strLower body) p)).length →
      (check_username_intelligent rm username site data use_tor strategy
          (SendResult.ok resp) elapsed).result.status = ResultStatus.Confirmed ∧
      (check_username_intelligent rm username site data use_tor strategy
          (SendResult.ok resp) elapsed).result.exist = true ∧
      (check_username_intelligent rm username site data use_tor strategy
          (SendResult.ok resp) elapsed).result.confidence = 85/100) ∧
    (strContains body data.error_msg = false →
      ((strContains (strLower body) "page not found" ||
        strContains (strLower body) "404" ||
        strContains (strLower body) "user not found") = true ∨
       (["profile", "posts", "followers"].filter
        (fun p => strContains (strLower body) p)).length < 2) →
      (check_username_intelligent rm username site data use_tor strategy
          (SendResult.ok resp) elapsed).result.status = ResultStatus.Likely ∧
      (check_username_intelligent rm username site data use_tor strategy
          (SendResult.ok resp) elapsed).result.exist = true ∧
      (check_username_intelligent rm username site data use_tor strategy
          (SendResult.ok resp) elapsed).result.confidence = 75/100) := by
  have h1 : ("message" = "status_code") = False := by decide
  simp only [check_username_intelligent, if_neg hsc, hrl, Bool.false_eq_true, if_false,
    classify_response, htype, h1, hbody]
  refine ⟨?_, ?_, ?_⟩
  · intro hm
    simp only [hm, if_true, ScanResult.not_found, clamp01]
    norm_num
  · intro hm hneg hpos
    have hq := quick_html_check_positive body hneg hpos
    simp only [hm, Bool.false_eq_true, if_false, hq, if_true, ScanResult.found, clamp01]
    norm_num
  · intro hm hcase
    have hq := quick_html_check_not_positive body hcase
    simp only [hm, hq, Bool.false_eq_true, if_false, ScanResult.found, clamp01]
    norm_num

/-- C4 witness: marker absent, no negative markers, two positive keywords
⇒ `Confirmed` at 0.85. -/
theorem message_method_classification_witness :
    (check_username_intelligent (fun _ _ => none) "alice" "site"
        { error_type := "message", error_msg := "ERRX", url := "https://e/\x7b\x7d",
          url_main := "", url_probe := "", error_url := "", username_claimed := "",
          username_unclaimed := "", regex_check := "" }
        false ScrapingStrategy.Fast
        (SendResult.ok
          { status := 200
            server_header := none
            cf_ray_present := false
            body := Except.ok "my profile with followers"
            final_url := "" }) 5).result.status = ResultStatus.Confirmed ∧
    (check_username_intelligent (fun _ _ => none) "alice" "site"
        { error_type := "message", error_msg := "ERRX", url := "https://e/\x7b\x7d",
          url_main := "", url_probe := "", error_url := "", username_claimed := "",
          username_unclaimed := "", regex_check := "" }
        false ScrapingStrategy.Fast
        (SendResult.ok
          { status := 200
            server_header := none
            cf_ray_present := false
            body := Except.ok "my profile with followers"
            final_url := "" }) 5).result.exist = true ∧
    (check_username_intelligent (fun _ _ => none) "alice" "site"
        { error_type := "message", error_msg := "ERRX", url := "https://e/\x7b\x7d",
          url_main := "", url_probe := "", error_url := "", username_claimed := "",
          username_unclaimed := "", regex_check := "" }
        false ScrapingStrategy.Fast
        (SendResult.ok
          { status := 200
            server_header := none
            cf_ray_present := false
            body := Except.ok "my profile with followers"
            final_url := "" }) 5).result.confidence = 85/100 :=
  (message_method_classification _ _ _ _ _ _ _ _ _ (by decide) rfl (by decide)
    rfl).2.1 (by decide) (by decide) (by decide)

/-- C3: a received response with status 429 or 503 classifies as `Blocked`
with `error = true` and confidence 0 and increments the rate-limit counter,
and the retry controller returns that outcome after exactly one attempt,
regardless of the retry budget. -/
theorem rate_limit_blocked_single_attempt
    (rm : String → String → Option Bool) (username site : String) (data : SiteData)
    (use_tor : Bool) (strategy : ScrapingStrategy) (resp : HttpResponse)
    (elapsed : Nat) (env : Nat → AttemptEnv) (max_retries : Nat)
    (hsc : ¬(data.regex_check ≠ "" ∧ rm data.regex_check username = some false))
    (hst : resp.status = 429 ∨ resp.status = 503)
    (henv : (env 0).send = SendResult.ok resp) :
    (check_username_intelligent rm username site data use_tor strategy
        (SendResult.ok resp) elapsed).result.status = ResultStatus.Blocked ∧
    (check_username_intelligent rm username site data use_tor strategy
        (SendResult.ok resp) elapsed).result.error = true ∧
    (check_username_intelligent rm username site data use_tor strategy
        (SendResult.ok resp) elapsed).result.confidence = 0 ∧
    (check_username_intelligent rm username site data use_tor strategy
        (SendResult.ok resp) elapsed).blocked_counted = 1 ∧
    check_with_adaptive_strategy rm username site data use_tor env max_retries =
      ((check_username_intelligent rm username site data use_tor ScrapingStrategy.Fast
          (env 0).send (env 0).elapsed).result,
       [ScrapingStrategy.Fast], []) := by
  have hrl : detect_rate_limit resp = true := by
    rcases hst with h | h <;> simp [detect_rate_limit, h]
  have hcls : ∀ (s : ScrapingStrategy) (e : Nat),
      (check_username_intelligent rm username site data use_tor s
        (SendResult.ok resp) e).result.status = ResultStatus.Blocked ∧
      (check_username_intelligent rm username site data use_tor s
        (SendResult.ok resp) e).result.error = true ∧
      (check_username_intelligent rm username site data use_tor s
        (SendResult.ok resp) e).result.confidence = 0 ∧
      (check_username_intelligent rm username site data use_tor s
        (SendResult.ok resp) e).blocked_counted = 1 := by
    intro s e
    simp only [check_username_intelligent, if_neg hsc, hrl, if_true,
      ScanResult.with_error]
    norm_num
  obtain ⟨h1, h2, h3, h4⟩ := hcls strategy elapsed
  refine ⟨h1, h2, h3, h4, ?_⟩
  unfold check_with_adaptive_strategy
  apply adaptive_loop_stop
  rw [henv]
  exact Or.inr (Or.inl (hcls ScrapingStrategy.Fast (env 0).elapsed).1)

/-- C3 witness: a concrete 429 response yields `Blocked` and a single
attempt even with two retries allowed. -/
theorem rate_limit_blocked_single_attempt_witness :
    (check_username_intelligent (fun _ _ => none) "alice" "site"
        { error_type := "status_code", error_msg := "", url := "https://e/\x7b\x7d",
          url_main := "", url_probe := "", error_url := "", username_claimed := "",
          username_unclaimed := "", regex_check := "" }
        false ScrapingStrategy.Fast
        (SendResult.ok
          { status := 429
            server_header := none
            cf_ray_present := false
            body := Except.ok ""
            final_url := "" }) 7).result.status = ResultStatus.Blocked ∧
    (check_username_intelligent (fun _ _ => none) "alice" "site"
        { error_type := "status_code", error_msg := "", url := "https://e/\x7b\x7d",
          url_main := "", url_probe := "", error_url := "", username_claimed := "",
          username_unclaimed := "", regex_check := "" }
        false ScrapingStrategy.Fast
        (SendResult.ok
          { status := 429
            server_header := none
            cf_ray_present := false
            body := Except.ok ""
            final_url := "" }) 7).result.error = true ∧
    (check_username_intelligent (fun _ _ => none) "alice" "site"
        { error_type := "status_code", error_msg := "", url := "https://e/\x7b\x7d",
          url_main := "", url_probe := "", error_url := "", username_claimed := "",
          username_unclaimed := "", regex_check := "" }
        false ScrapingStrategy.Fast
        (SendResult.ok
          { status := 429
            server_header := none
            cf_ray_present := false
            body := Except.ok ""
            final_url := "" }) 7).result.confidence = 0 ∧
    (check_username_intelligent (fun _ _ => none) "alice" "site"
        { error_type := "status_code", error_msg := "", url := "https://e/\x7b\x7d",
          url_main := "", url_probe := "", error_url := "", username_claimed := "",
          username_unclaimed := "", regex_check := "" }
        false ScrapingStrategy.Fast
        (SendResult.ok
          { status := 429
            server_header := none
            cf_ray_present := false
            body := Except.ok ""
            final_url := "" }) 7).blocked_counted = 1 ∧
    check_with_adaptive_strategy (fun _ _ => none) "alice" "site"
        { error_type := "status_code", error_msg := "", url := "https://e/\x7b\x7d",
          url_main := "", url_probe := "", error_url := "", username_claimed := "",
          username_unclaimed := "", regex_check := "" }
        false
        (fun _ =>
          { send :=
              SendResult.ok
                { status := 429
                  server_header := none
                  cf_ray_present := false
                  body := Except.ok ""
                  final_url := "" }
            elapsed := 7 }) 2 =
      ((check_username_intelligent (fun _ _ => none) "alice" "site"
          { error_type := "status_code", error_msg := "", url := "https://e/\x7b\x7d",
            url_main := "", url_probe := "", error_url := "", username_claimed := "",
            username_unclaimed := "", regex_check := "" }
          false ScrapingStrategy.Fast
          (SendResult.ok
            { status := 429
              server_header := none
              cf_ray_present := false
              body := Except.ok ""
              final_url := "" }) 7).result,
       [ScrapingStrategy.Fast], []) :=
  rate_limit_blocked_single_attempt _ _ _ _ _ _ _ _ _ _ (by decide) (Or.inl rfl) rfl

/-- C2: when every attempt of a probe errors with a non-`Blocked` status and
the retry budget is 2, exactly three attempts run with strategies
`[Fast, Stealth, AntiBlock]`, the controller sleeps 100 ms before the second
attempt and 200 ms before the third, and the final outcome is the third
attempt's outcome. -/
theorem retry_escalation_sequence
    (rm : String → String → Option Bool) (username site : String) (data : SiteData)
    (use_tor : Bool) (env : Nat → AttemptEnv)
    (h : ∀ (i : Nat) (s : ScrapingStrategy),
      (check_username_intelligent rm username site data use_tor s (env i).send
        (env i).elapsed).result.error = true ∧
      (check_username_intelligent rm username site data use_tor s (env i).send
        (env i).elapsed).result.status ≠ ResultStatus.Blocked) :
    check_with_adaptive_strategy rm username site data use_tor env 2 =
      ((check_username_intelligent rm username site data use_tor
          ScrapingStrategy.AntiBlock (env 2).send (env 2).elapsed).result,
       [ScrapingStrategy.Fast, ScrapingStrategy.Stealth, ScrapingStrategy.AntiBlock],
       [100, 200]) := by
  unfold check_with_adaptive_strategy
  rw [adaptive_loop_continue _ 2 0 ScrapingStrategy.Fast
    (h 0 ScrapingStrategy.Fast).1 (h 0 ScrapingStrategy.Fast).2 (by omega)]
  norm_num
  rw [adaptive_loop_continue _ 2 1 ScrapingStrategy.Stealth
    (h 1 ScrapingStrategy.Stealth).1 (h 1 ScrapingStrategy.Stealth).2 (by omega)]
  norm_num
  rw [adaptive_loop_stop _ 2 2 ScrapingStrategy.AntiBlock
    (Or.inr (Or.inr (by omega)))]
  simp

/-- A transport-level failure always yields an `Error` outcome with the
error flag set, when the regex gate does not fire. -/
theorem transport_error_outcome
    (rm : String → String → Option Bool) (username site : String) (data : SiteData)
    (use_tor : Bool) (strategy : ScrapingStrategy) (e : String) (elapsed : Nat)
    (hsc : ¬(data.regex_check ≠ "" ∧ rm data.regex_check username = some false)) :
    (check_username_intelligent rm username site data use_tor strategy
        (SendResult.err e) elapsed).result.error = true ∧
    (check_username_intelligent rm username site data use_tor strategy
        (SendResult.err e) elapsed).result.status = ResultStatus.Error := by
  simp [check_username_intelligent, if_neg hsc, ScanResult.with_error]

/-- C2 witness: a transport that always fails produces the strategy sequence
`[Fast, Stealth, AntiBlock]` with sleeps `[100, 200]`. -/
theorem retry_escalation_sequence_witness :
    check_with_adaptive_strategy (fun _ _ => none) "alice" "site"
        { error_type := "status_code", error_msg := "", url := "https://e/\x7b\x7d",
          url_main := "", url_probe := "", error_url := "", username_claimed := "",
          username_unclaimed := "", regex_check := "" }
        false (fun _ => { send := SendResult.err "timeout", elapsed := 0 }) 2 =
      ((check_username_intelligent (fun _ _ => none) "alice" "site"
          { error_type := "status_code", error_msg := "", url := "https://e/\x7b\x7d",
            url_main := "", url_probe := "", error_url := "", username_claimed := "",
            username_unclaimed := "", regex_check := "" }
          false ScrapingStrategy.AntiBlock (SendResult.err "timeout") 0).result,
       [ScrapingStrategy.Fast, ScrapingStrategy.Stealth, ScrapingStrategy.AntiBlock],
       [100, 200]) :=
  retry_escalation_sequence _ _ _ _ _ _ (fun i s =>
    ⟨(transport_error_outcome (fun _ _ => none) "alice" "site"
        { error_type := "status_code", error_msg := "", url := "https://e/\x7b\x7d",
          url_main := "", url_probe := "", error_url := "", username_claimed := "",
          username_unclaimed := "", regex_check := "" }
        false s "timeout" 0 (by decide)).1,
     fun hc => ResultStatus.noConfusion
      (((transport_error_outcome (fun _ _ => none) "alice" "site"
        { error_type := "status_code", error_msg := "", url := "https://e/\x7b\x7d",
          url_main := "", url_probe := "", error_url := "", username_claimed := "",
          username_unclaimed := "", regex_check := "" }
        false s "timeout" 0 (by decide)).2.symm.trans hc))⟩)

/-- The clamp used by `found`/`not_found` never goes below 0. -/
theorem clamp01_nonneg (c : ConfidenceScore) : 0 ≤ clamp01 c :=
  le_max_left 0 _

/-- The clamp used by `found`/`not_found` never exceeds 1. -/
theorem clamp01_le_one (c : ConfidenceScore) : clamp01 c ≤ 1 :=
  max_le (by norm_num) (min_le_right c 1)

/-- Every branch of the classification block produces a confidence in
[0,1]: `with_error` writes 0 and `found`/`not_found` clamp. -/
theorem classify_response_confidence_bounds (site : String) (data : SiteData)
    (result : ScanResult) (url : String) (requests : List (String × Bool))
    (cf : Nat) (resp : HttpResponse) (elapsed : Nat) :
    0 ≤ (classify_response site data result url requests cf resp
        elapsed).result.confidence ∧
    (classify_response site data result url requests cf resp
        elapsed).result.confidence ≤ 1 := by
  unfold classify_response
  repeat' split
  all_goals try (simp [ScanResult.with_error, ScanResult.found, ScanResult.not_found,
    clamp01_nonneg, clamp01_le_one])
  all_goals repeat' split
  all_goals simp [ScanResult.with_error, ScanResult.found, ScanResult.not_found,
    clamp01_nonneg, clamp01_le_one]

/-- Every branch of the classifier produces a confidence in [0,1]. -/
theorem classifier_confidence_bounds
    (rm : String → String → Option Bool) (username site : String) (data : SiteData)
    (use_tor : Bool) (strategy : ScrapingStrategy) (send : SendResult) (elapsed : Nat) :
    0 ≤ (check_username_intelligent rm username site data use_tor strategy send
        elapsed).result.confidence ∧
    (check_username_intelligent rm username site data use_tor strategy send
        elapsed).result.confidence ≤ 1 := by
  unfold check_username_intelligent
  by_cases hsc : data.regex_check ≠ "" ∧ rm data.regex_check username = some false
  · rw [if_pos hsc]
    simp [ScanResult.not_found, clamp01_nonneg, clamp01_le_one]
  · rw [if_neg hsc]
    cases send with
    | err e => norm_num [ScanResult.with_error]
    | ok resp =>
      by_cases hrl : detect_rate_limit resp = true
      · simp only [hrl, if_true]
        norm_num [ScanResult.with_error]
      · have hrl2 : detect_rate_limit resp = false := by simpa using hrl
        simp only [hrl2, Bool.false_eq_true, if_false]
        exact classify_response_confidence_bounds _ _ _ _ _ _ _ _

/-- The retry loop's final result is always some attempt's result. -/
theorem adaptive_loop_result_from_attempt
    (attempt : Nat → ScrapingStrategy → ProbeOutcome) (max_retries : Nat) :
    ∀ (fuel retries : Nat) (strat : ScrapingStrategy), max_retries - retries ≤ fuel →
      ∃ (i : Nat) (s : ScrapingStrategy),
        (adaptive_loop attempt max_retries retries strat).1 = (attempt i s).result := by
  intro fuel
  induction fuel with
  | zero =>
    intro retries strat hf
    rw [adaptive_loop]
    split
    · exact ⟨retries, strat, rfl⟩
    · rename_i h
      push_neg at h
      exact absurd h.2.2 (by omega)
  | succ n ih =>
    intro retries strat hf
    rw [adaptive_loop]
    split
    · exact ⟨retries, strat, rfl⟩
    · rename_i h
      push_neg at h
      obtain ⟨i, s, hi⟩ := ih (retries + 1)
        (if retries + 1 = 1 then ScrapingStrategy.Stealth else ScrapingStrategy.AntiBlock)
        (by omega)
      exact ⟨i, s, hi⟩

/-- C6: every scan outcome produced by the constructors and by the
classifier and retry paths has a confidence within [0,1], for every input
confidence argument. -/
theorem confidence_within_unit_interval :
    (∀ (username site : String),
      0 ≤ (ScanResult.new username site).confidence ∧
      (ScanResult.new username site).confidence ≤ 1) ∧
    (∀ (r : ScanResult) (msg : String) (st : ResultStatus),
      0 ≤ (ScanResult.with_error r msg st).confidence ∧
      (ScanResult.with_error r msg st).confidence ≤ 1) ∧
    (∀ (r : ScanResult) (url link : String) (st : ResultStatus) (c : ConfidenceScore),
      0 ≤ (ScanResult.found r url link st c).confidence ∧
      (ScanResult.found r url link st c).confidence ≤ 1) ∧
    (∀ (r : ScanResult) (url : String) (st : ResultStatus) (c : ConfidenceScore),
      0 ≤ (ScanResult.not_found r url st c).confidence ∧
      (ScanResult.not_found r url st c).confidence ≤ 1) ∧
    (∀ (rm : String → String → Option Bool) (username site : String) (data : SiteData)
        (use_tor : Bool) (strategy : ScrapingStrategy) (send : SendResult) (elapsed : Nat),
      0 ≤ (check_username_intelligent rm username site data use_tor strategy send
          elapsed).result.confidence ∧
      (check_username_intelligent rm username site data use_tor strategy send
          elapsed).result.confidence ≤ 1) ∧
    (∀ (rm : String → String → Option Bool) (username site : String) (data : SiteData)
        (use_tor : Bool) (env : Nat → AttemptEnv) (max_retries : Nat),
      0 ≤ (check_with_adaptive_strategy rm username site data use_tor env
          max_retries).1.confidence ∧
      (check_with_adaptive_strategy rm username site data use_tor env
          max_retries).1.confidence ≤ 1) := by
  refine ⟨?_, ?_, ?_, ?_, ?_, ?_⟩
  · intro username site
    simp [ScanResult.new]
  · intro r msg st
    simp [ScanResult.with_error]
  · intro r url link st c
    simp [ScanResult.found, clamp01_nonneg, clamp01_le_one]
  · intro r url st c
    simp [ScanResult.not_found, clamp01_nonneg, clamp01_le_one]
  · intro rm username site data use_tor strategy send elapsed
    exact classifier_confidence_bounds rm username site data use_tor strategy send elapsed
  · intro rm username site data use_tor env max_retries
    obtain ⟨i, s, hi⟩ := adaptive_loop_result_from_attempt
      (fun retries strat =>
        check_username_intelligent rm username site data use_tor strat
          (env retries).send (env retries).elapsed)
      max_retries max_retries 0 ScrapingStrategy.Fast (by omega)
    unfold check_with_adaptive_strategy
    rw [hi]
    exact classifier_confidence_bounds rm username site data use_tor s
      (env i).send (env i).elapsed

/-- C7 counterexample: with a distinct probe template, the URL actually
requested is the username-substituted probe template, but the outcome's
probe-URL field holds the raw, unsubstituted template, so the two differ. -/
theorem probe_url_field_counterexample :
    (check_username_intelligent (fun _ _ => none) "alice" "site"
        { error_type := "status_code", error_msg := "", url := "https://e/\x7b\x7d",
          url_main := "", url_probe := "https://api.e/\x7b\x7d", error_url := "",
          username_claimed := "", username_unclaimed := "", regex_check := "" }
        false ScrapingStrategy.Fast
        (SendResult.ok
          { status := 200
            server_header := none
            cf_ray_present := false
            body := Except.ok ""
            final_url := "" }) 0).requests.map Prod.fst = ["https://api.e/alice"] ∧
    (check_username_intelligent (fun _ _ => none) "alice" "site"
        { error_type := "status_code", error_msg := "", url := "https://e/\x7b\x7d",
          url_main := "", url_probe := "https://api.e/\x7b\x7d", error_url := "",
          username_claimed := "", username_unclaimed := "", regex_check := "" }
        false ScrapingStrategy.Fast
        (SendResult.ok
          { status := 200
            server_header := none
            cf_ray_present := false
            body := Except.ok ""
            final_url := "" }) 0).result.url_probe = "https://api.e/\x7b\x7d" ∧
    ¬(check_username_intelligent (fun _ _ => none) "alice" "site"
        { error_type := "status_code", error_msg := "", url := "https://e/\x7b\x7d",
          url_main := "", url_probe := "https://api.e/\x7b\x7d", error_url := "",
          username_claimed := "", username_unclaimed := "", regex_check := "" }
        false ScrapingStrategy.Fast
        (SendResult.ok
          { status := 200
            server_header := none
            cf_ray_present := false
            body := Except.ok ""
            final_url := "" }) 0).result.url_probe = "https://api.e/alice" := by
  decide

/-- The classification block passes the probe-URL field and the request
list through unchanged. -/
theorem classify_response_fields (site : String) (data : SiteData)
    (result : ScanResult) (url : String) (requests : List (String × Bool))
    (cf : Nat) (resp : HttpResponse) (elapsed : Nat) :
    (classify_response site data result url requests cf resp
        elapsed).result.url_probe = result.url_probe ∧
    (classify_response site data result url requests cf resp elapsed).requests
      = requests := by
  unfold classify_response
  repeat' split
  all_goals try (simp [ScanResult.with_error, ScanResult.found, ScanResult.not_found])
  all_goals repeat' split
  all_goals simp [ScanResult.with_error, ScanResult.found, ScanResult.not_found]

/-- C7 as amended: the outcome's probe-URL field always holds the site's
raw probe-URL template (empty when absent), while the URL actually
requested — whenever a request is issued — is the probe template with the
username substituted, or the substituted main URL when no distinct probe
template is present. -/
theorem probe_url_field_raw_template
    (rm : String → String → Option Bool) (username site : String) (data : SiteData)
    (use_tor : Bool) (strategy : ScrapingStrategy) (send : SendResult) (elapsed : Nat) :
    (check_username_intelligent rm username site data use_tor strategy send
        elapsed).result.url_probe = data.url_probe ∧
    (¬(data.regex_check ≠ "" ∧ rm data.regex_check username = some false) →
      (check_username_intelligent rm username site data use_tor strategy send
          elapsed).requests =
        [(if data.url_probe ≠ "" then strReplace data.url_probe "\x7b\x7d" username
          else strReplace data.url "\x7b\x7d" username,
          decide (strategy ≠ ScrapingStrategy.Fast))]) := by
  by_cases hsc : data.regex_check ≠ "" ∧ rm data.regex_check username = some false
  · refine ⟨?_, fun hn => absurd hsc hn⟩
    simp [check_username_intelligent, if_pos hsc, ScanResult.not_found, ScanResult.new]
  · unfold check_username_intelligent
    rw [if_neg hsc]
    cases send with
    | err e => exact ⟨rfl, fun _ => rfl⟩
    | ok resp =>
      by_cases hrl : detect_rate_limit resp = true
      · simp only [hrl, if_true]
        exact ⟨rfl, fun _ => trivial⟩
      · have hrl2 : detect_rate_limit resp = false := by simpa using hrl
        simp only [hrl2, Bool.false_eq_true, if_false]
        exact ⟨(classify_response_fields _ _ _ _ _ _ _ _).1,
          fun _ => (classify_response_fields _ _ _ _ _ _ _ _).2⟩

/-- C7 witness: a concrete probe with a distinct probe template, applying
the amended statement. -/
theorem probe_url_field_raw_template_witness :
    (check_username_intelligent (fun _ _ => none) "bob" "site"
        { error_type := "status_code", error_msg := "", url := "https://e/\x7b\x7d",
          url_main := "", url_probe := "https://api.e/\x7b\x7d", error_url := "",
          username_claimed := "", username_unclaimed := "", regex_check := "" }
        false ScrapingStrategy.Stealth (SendResult.err "boom") 0).result.url_probe
      = "https://api.e/\x7b\x7d" ∧
    (check_username_intelligent (fun _ _ => none) "bob" "site"
        { error_type := "status_code", error_msg := "", url := "https://e/\x7b\x7d",
          url_main := "", url_probe := "https://api.e/\x7b\x7d", error_url := "",
          username_claimed := "", username_unclaimed := "", regex_check := "" }
        false ScrapingStrategy.Stealth (SendResult.err "boom") 0).requests =
      [("https://api.e/bob", true)] :=
  ⟨(probe_url_field_raw_template (fun _ _ => none) "bob" "site"
      { error_type := "status_code", error_msg := "", url := "https://e/\x7b\x7d",
        url_main := "", url_probe := "https://api.e/\x7b\x7d", error_url := "",
        username_claimed := "", username_unclaimed := "", regex_check := "" }
      false ScrapingStrategy.Stealth (SendResult.err "boom") 0).1,
   (probe_url_field_raw_template (fun _ _ => none) "bob" "site"
      { error_type := "status_code", error_msg := "", url := "https://e/\x7b\x7d",
        url_main := "", url_probe := "https://api.e/\x7b\x7d", error_url := "",
        username_claimed := "", username_unclaimed := "", regex_check := "" }
      false ScrapingStrategy.Stealth (SendResult.err "boom") 0).2 (by decide)⟩

/-- C8 counterexample: a rate-limited (429) response is a classification
that is not the regex short-circuit (a request was issued), yet no duration
is recorded: the timing trackers remain empty after folding the probe's
statistics effects. -/
theorem timing_blocked_counterexample :
    (check_username_intelligent (fun _ _ => none) "alice" "site"
        { error_type := "status_code", error_msg := "", url := "https://e/\x7b\x7d",
          url_main := "", url_probe := "", error_url := "", username_claimed := "",
          username_unclaimed := "", regex_check := "" }
        false ScrapingStrategy.Fast
        (SendResult.ok
          { status := 429
            server_header := none
            cf_ray_present := false
            body := Except.ok ""
            final_url := "" }) 9).requests ≠ [] ∧
    (check_username_intelligent (fun _ _ => none) "alice" "site"
        { error_type := "status_code", error_msg := "", url := "https://e/\x7b\x7d",
          url_main := "", url_probe := "", error_url := "", username_claimed := "",
          username_unclaimed := "", regex_check := "" }
        false ScrapingStrategy.Fast
        (SendResult.ok
          { status := 429
            server_header := none
            cf_ray_present := false
            body := Except.ok ""
            final_url := "" }) 9).result.status = ResultStatus.Blocked ∧
    (check_username_intelligent (fun _ _ => none) "alice" "site"
        { error_type := "status_code", error_msg := "", url := "https://e/\x7b\x7d",
          url_main := "", url_probe := "", error_url := "", username_claimed := "",
          username_unclaimed := "", regex_check := "" }
        false ScrapingStrategy.Fast
        (SendResult.ok
          { status := 429
            server_header := none
            cf_ray_present := false
            body := Except.ok ""
            final_url := "" }) 9).timings = [] ∧
    (apply_probe ScraperStats.new
      (check_username_intelligent (fun _ _ => none) "alice" "site"
        { error_type := "status_code", error_msg := "", url := "https://e/\x7b\x7d",
          url_main := "", url_probe := "", error_url := "", username_claimed := "",
          username_unclaimed := "", regex_check := "" }
        false ScrapingStrategy.Fast
        (SendResult.ok
          { status := 429
            server_header := none
            cf_ray_present := false
            body := Except.ok ""
            final_url := "" }) 9)).fastest_site = none ∧
    (apply_probe ScraperStats.new
      (check_username_intelligent (fun _ _ => none) "alice" "site"
        { error_type := "status_code", error_msg := "", url := "https://e/\x7b\x7d",
          url_main := "", url_probe := "", error_url := "", username_claimed := "",
          username_unclaimed := "", regex_check := "" }
        false ScrapingStrategy.Fast
        (SendResult.ok
          { status := 429
            server_header := none
            cf_ray_present := false
            body := Except.ok ""
            final_url := "" }) 9)).slowest_site = none := by
  decide

/-- The classification block records the timing exactly when it classifies
without error, given an error-free incoming result and a nonempty request
list. -/
theorem classify_response_timings (site : String) (data : SiteData)
    (result : ScanResult) (url : String) (requests : List (String × Bool))
    (cf : Nat) (resp : HttpResponse) (elapsed : Nat)
    (hres : result.error = false) (hreq : requests ≠ []) :
    ((classify_response site data result url requests cf resp elapsed).timings
        = [(site, elapsed)] ↔
      ((classify_response site data result url requests cf resp elapsed).requests
          ≠ [] ∧
       (classify_response site data result url requests cf resp
          elapsed).result.error = false)) ∧
    ((classify_response site data result url requests cf resp elapsed).timings
        = [(site, elapsed)] ∨
     (classify_response site data result url requests cf resp elapsed).timings
        = []) := by
  unfold classify_response
  repeat' split
  all_goals try (simp [ScanResult.with_error, ScanResult.found, ScanResult.not_found,
    hres, hreq])
  all_goals repeat' split
  all_goals simp [ScanResult.with_error, ScanResult.found, ScanResult.not_found,
    hres, hreq]

/-- C8 as amended: a probe's duration is recorded (one `update_timing` call
with the site name and the attempt's duration) exactly when a request was
issued and the classification completed without error; the `Blocked`,
unsupported-method, transport-error and body-read-error paths, like the
regex short-circuit, record nothing. -/
theorem timing_recorded_iff_classified
    (rm : String → String → Option Bool) (username site : String) (data : SiteData)
    (use_tor : Bool) (strategy : ScrapingStrategy) (send : SendResult) (elapsed : Nat) :
    ((check_username_intelligent rm username site data use_tor strategy send
        elapsed).timings = [(site, elapsed)] ↔
      ((check_username_intelligent rm username site data use_tor strategy send
          elapsed).requests ≠ [] ∧
       (check_username_intelligent rm username site data use_tor strategy send
          elapsed).result.error = false)) ∧
    ((check_username_intelligent rm username site data use_tor strategy send
        elapsed).timings = [(site, elapsed)] ∨
     (check_username_intelligent rm username site data use_tor strategy send
        elapsed).timings = []) := by
  unfold check_username_intelligent
  by_cases hsc : data.regex_check ≠ "" ∧ rm data.regex_check username = some false
  · rw [if_pos hsc]
    simp
  · rw [if_neg hsc]
    cases send with
    | err e => simp [ScanResult.with_error, ScanResult.new]
    | ok resp =>
      by_cases hrl : detect_rate_limit resp = true
      · simp only [hrl, if_true]
        simp [ScanResult.with_error, ScanResult.new]
      · have hrl2 : detect_rate_limit resp = false := by simpa using hrl
        simp only [hrl2, Bool.false_eq_true, if_false]
        exact classify_response_timings _ _ _ _ _ _ _ _ rfl (by simp)

end Maigret
